import Mathlib

/-!
Verification of the sample-generation and file-materialization pipeline of
the tykhe-flask application (`app/__init__.py`, `app/data.py`).

The embedding translates the Python source into Lean:

* NumPy's seeded bit generator (`np.random.default_rng(sid)`) is abstracted
  as a seed-indexed raw stream of rationals, bundled with the other purely
  numerical library primitives (`np.random.Generator.choice`'s internal
  mapping from raw randomness and a weight vector to an index,
  `integers`' mapping to a bounded index, `multivariate_normal`'s mapping
  to a correlated vector, and the `round∘exp` float pipeline) in a
  structure `Prims`.  All of these are deterministic library functions of
  their arguments; every theorem below is proved for an arbitrary `Prims`,
  so nothing depends on the concrete numerical values they produce.
* pandas `DataFrame`s are association lists from column name to a typed
  column; a pandas categorical column is stored as its declared category
  list plus the list of integer codes, exactly the representation pandas
  itself uses.
* Python's in-place mutation of a `DataFrame` (`df[var] = ...`) is made
  explicit: each materializer returns the mutated frame next to its output.
-/

/-- Deterministic numerical library primitives, abstracted.
`rawStream seed i` is the `i`-th raw draw of the bit generator created by
`np.random.default_rng seed`; the other fields model how NumPy turns a raw
draw and the distribution parameters into a value.  They are parameters of
the whole development: no theorem depends on their concrete values. -/
structure Prims where
  rawStream : Nat → Nat → ℚ
  choiceIdx : ℚ → List ℚ → Nat
  intIdx : ℚ → Nat → Nat
  roundExp : ℚ → ℚ
  mvnVec : List ℚ → List (List ℚ) → ℚ → List ℚ

/-- A NumPy generator instance: the seed-determined raw stream plus the
position reached in it.  Each draw consumes one raw value, so the sequence
of draws is a deterministic function of the seed (the state at creation). -/
structure Rng where
  stream : Nat → ℚ
  ctr : Nat

/-- Model of `np.random.default_rng(sid)`: a fresh generator seeded from `sid`. -/
def default_rng (p : Prims) (sid : Nat) : Rng :=
  ⟨p.rawStream sid, 0⟩

/-- Consume one raw draw. -/
def Rng.next (r : Rng) : ℚ × Rng :=
  (r.stream r.ctr, ⟨r.stream, r.ctr + 1⟩)

/-- Model of `rng.normal()`: one standard normal draw. -/
def Rng.normal (r : Rng) : ℚ × Rng := r.next

/-- Model of `rng.normal(mu, sigma)`: `loc + scale * (standard draw)`. -/
def Rng.normalLS (r : Rng) (mu sigma : ℚ) : ℚ × Rng :=
  let (x, r') := r.next
  (mu + sigma * x, r')

/-- Model of `rng.integers(n)`: an index below `n` from one draw. -/
def Rng.integers (p : Prims) (r : Rng) (n : Nat) : Nat × Rng :=
  let (x, r') := r.next
  (p.intIdx x n, r')

/-- Model of `rng.choice(n, p=w)`: a weighted index from one draw. -/
def Rng.choice (p : Prims) (r : Rng) (w : List ℚ) : Nat × Rng :=
  let (x, r') := r.next
  (p.choiceIdx x w, r')

/-- Model of `rng.multivariate_normal(mu, Sigma)`: one correlated vector draw. -/
def Rng.multivariate_normal (p : Prims) (r : Rng) (mu : List ℚ)
    (Sigma : List (List ℚ)) : List ℚ × Rng :=
  let (x, r') := r.next
  (p.mvnVec mu Sigma x, r')

/-- A cell value as produced by a study's `get_observation`. -/
inductive Value
  | num (q : ℚ)
  | str (s : String)
deriving DecidableEq, Repr

/-- A pandas dtype as declared in a study's `VARIABLES` schema:
`float`, or `pd.CategoricalDtype(categories, ordered)`. -/
inductive Dtype
  | float
  | category (ordered : Bool) (categories : List String)
deriving DecidableEq, Repr

/-- A typed pandas column.
`cat ordered categories codes` is a categorical column (categories plus
per-row integer codes, pandas' own representation); `intCol` is an integer
column such as the one produced by `.cat.codes`; `strCol` results from
`.astype('str')`. -/
inductive Column
  | numeric (vals : List ℚ)
  | intCol (vals : List Nat)
  | cat (ordered : Bool) (categories : List String) (codes : List Nat)
  | strCol (vals : List String)
deriving DecidableEq, Repr

/-- A DataFrame: ordered association list column name → column. -/
def DataFrame := List (String × Column)
deriving DecidableEq, Repr

/-- Number of rows of a column. -/
def Column.size : Column → Nat
  | .numeric vs => vs.length
  | .intCol vs => vs.length
  | .cat _ _ cs => cs.length
  | .strCol vs => vs.length

/-- First `m` rows of a column (row slicing). -/
def Column.take (m : Nat) : Column → Column
  | .numeric vs => .numeric (vs.take m)
  | .intCol vs => .intCol (vs.take m)
  | .cat o c cs => .cat o c (cs.take m)
  | .strCol vs => .strCol (vs.take m)

/-- First `m` rows of a DataFrame. -/
def DataFrame.firstRows (m : Nat) (df : DataFrame) : DataFrame :=
  df.map (fun nc => (nc.1, nc.2.take m))

/-- Numeric content of a cell (used when a column is `astype`d to float). -/
def Value.toQ : Value → ℚ
  | .num q => q
  | .str _ => 0

/-- String content of a cell (used when a column is `astype`d to category). -/
def Value.toStr : Value → String
  | .num _ => ""
  | .str s => s

/-- Translation of `df.astype` for one column: coerce the raw record cells to the declared
dtype.  A string cell of a categorical column becomes its integer code
(`categories.indexOf`), as pandas does. -/
def coerceColumn (dt : Dtype) (vals : List Value) : Column :=
  match dt with
  | .float => .numeric (vals.map Value.toQ)
  | .category o cats => .cat o cats (vals.map (fun v => cats.indexOf v.toStr))

/-- Translation of `pd.DataFrame.from_records(sample, columns=...)` followed by
`df.astype(variables)`: the `j`-th cell of each record becomes a row of the
`j`-th declared column, coerced to its declared dtype. -/
def mkDataFrame (vars : List (String × Dtype))
    (sample : List (List Value)) : DataFrame :=
  vars.enum.map (fun jv =>
    (jv.2.1, coerceColumn jv.2.2 (sample.map (fun row => row.getD jv.1 (.num 0)))))

/-- A study: the declared variable schema (name → dtype; descriptions are
omitted as no claim concerns them) and the per-observation sampling
function `get_observation(rng, index)`, which threads the shared generator
explicitly. -/
structure Study where
  VARIABLES : List (String × Dtype)
  get_observation : Rng → Nat → List Value × Rng

/-- The observation list `[get_observation(rng, index) for index in range(first, first+count)]`,
with the single shared generator threaded through in index order. -/
def genRows (st : Study) (first count : Nat) (rng : Rng) : List (List Value) :=
  match count with
  | 0 => []
  | c + 1 =>
    let (row, rng') := st.get_observation rng first
    row :: genRows st (first + 1) c rng'

/-- Translation of `Study.get_sample(size, rng)` from `app/data.py`: collect `size`
observations in index order from the shared generator, then assemble them
into a typed DataFrame using the declared schema. -/
def Study.get_sample (st : Study) (size : Nat) (rng : Rng) : DataFrame :=
  mkDataFrame st.VARIABLES (genRows st 0 size rng)

/-- Translation of `class TwoSample(Study)` from `app/data.py`, with effect size `d` and
`groups = ['A', 'B']`: group membership alternates with the observation
index (`gi = index % 2`), one standard normal is drawn, and `d` is added
for group B. -/
def TwoSample (d : ℚ) : Study where
  VARIABLES :=
    [("group", .category false ["A", "B"]),
     ("x", .float)]
  get_observation := fun rng index =>
    let groups := ["A", "B"]
    let gi := index % 2
    let (x, rng') := rng.normal
    let x := if gi = 1 then x + d else x
    ([.str (groups.getD gi ""), .num x], rng')

/-- Translation of `class Levels(Study)` from `app/data.py`: one unordered categorical
(`sex`), one ordered categorical (`happiness`), one unordered categorical
(`colour`) and one continuous variable (`height`), with the conditional
probability tables hard-coded in `Levels.__init__`. -/
def Levels (p : Prims) : Study where
  VARIABLES :=
    [("sex", .category false ["female", "male"]),
     ("happiness", .category true
        ["very unhappy", "unhappy", "neutral", "happy", "very happy"]),
     ("colour", .category false
        ["red", "orange", "yellow", "green", "blue", "purple",
         "black", "white", "grey", "brown"]),
     ("height", .float)]
  get_observation := fun rng _ =>
    let sex := ["female", "male"]
    let happiness := ["very unhappy", "unhappy", "neutral",
                      "happy", "very happy"]
    let colour := ["red", "orange", "yellow", "green", "blue", "purple",
                   "black", "white", "grey", "brown"]
    let sex_happiness : List (List ℚ) :=
      [[16/100, 17/100, 9/100, 23/100, 35/100],
       [31/100, 26/100, 14/100, 18/100, 11/100]]
    let sex_lhm : List (List ℚ) :=
      [[5119/1000, 5576/100000],
       [5163/1000, 6775/100000]]
    let sex_colour : List (List ℚ) :=
      [[120/1000, 69/1000, 60/1000, 174/1000, 260/1000, 170/1000,
        64/1000, 36/1000, 32/1000, 15/1000],
       [140/1000, 80/1000, 46/1000, 200/1000, 290/1000, 90/1000,
        78/1000, 26/1000, 35/1000, 15/1000]]
    let (si, rng) := rng.integers p sex.length
    let (hi, rng) := rng.choice p (sex_happiness.getD si [])
    let (ci, rng) := rng.choice p (sex_colour.getD si [])
    let lhm := sex_lhm.getD si []
    let (z, rng) := rng.normalLS (lhm.getD 0 0) (lhm.getD 1 0)
    let height := p.roundExp z
    ([.str (sex.getD si ""), .str (happiness.getD hi ""),
      .str (colour.getD ci ""), .num height], rng)

/-- Translation of `class Simon(Study)` from `app/data.py`: four continuous reaction-time
variables, each observation one multivariate-normal draw with mean vector
`mu` and covariance `Sigma`.  The concrete `mu`/`Sigma` are estimated in
`Simon.__init__` from a reference data file that is not part of the
source tree, so they enter the model as parameters. -/
def Simon (p : Prims) (mu : List ℚ) (Sigma : List (List ℚ)) : Study where
  VARIABLES :=
    [("session1_congruent", .float),
     ("session1_incongruent", .float),
     ("session2_congruent", .float),
     ("session2_incongruent", .float)]
  get_observation := fun rng _ =>
    let (x, rng') := rng.multivariate_normal p mu Sigma
    (x.map .num, rng')

/-- Modelled from the spec: the multivariate-normal parameters of the Simon
study are "empirically estimated ... loaded once from reference data at
construction"; the reference data file (`data/Zwaan2018/MeansSimonTask.csv`)
is not in the source tree, so the estimated mean vector and covariance
matrix are opaque inputs of the study table. -/
structure SimonParams where
  mu : List ℚ
  Sigma : List (List ℚ)

/-- The `STUDIES` table from `app/__init__.py`: the study instances the
application serves, keyed by study id. -/
def STUDIES (p : Prims) (sp : SimonParams) : List (String × Study) :=
  [("levels", Levels p),
   ("simon", Simon p sp.mu sp.Sigma),
   ("twosample_null", TwoSample 0),
   ("twosample_medium", TwoSample (1/2))]

/-- Association-list lookup (Python `dict` access / `dict.get`). -/
def alistGet {α β : Type} [DecidableEq α] (m : List (α × β)) (k : α) :
    Option β :=
  match m with
  | [] => none
  | kv :: rest => if kv.1 = k then some kv.2 else alistGet rest k

/-- The memoization key of `get_study_sample`: its argument tuple
`(study, size, sid)` (`size` and `sid` already converted by `int(...)` in
`get_data_file`). -/
structure SampleKey where
  study : String
  size : Nat
  sid : Nat
deriving DecidableEq, Repr

/-- The body of `get_study_sample(study, size, sid)` from
`app/__init__.py`: build a fresh generator seeded with `sid` and sample
the requested study.  `STUDIES[study]` raises `KeyError` for an unknown
study id, modelled as `none`. -/
def get_study_sample (p : Prims) (sp : SimonParams) (k : SampleKey) :
    Option DataFrame :=
  (alistGet (STUDIES p sp) k.study).map
    (fun st => st.get_sample k.size (default_rng p k.sid))

/-- The in-process `lru_cache` state of `get_study_sample`, most recently
used entry first. -/
abbrev Memo := List (SampleKey × DataFrame)

/-- Translation of `@lru_cache(maxsize=300)` applied to `get_study_sample`: on a hit the
cached DataFrame object is returned (and becomes most recently used); on a
miss the body runs, the result is stored and the least recently used entry
is evicted beyond capacity 300; a `KeyError` escaping the body is not
cached. -/
def get_study_sample_memo (p : Prims) (sp : SimonParams) (m : Memo)
    (k : SampleKey) : Option DataFrame × Memo :=
  match alistGet m k with
  | some v => (some v, (k, v) :: m.filter (fun kv => kv.1 ≠ k))
  | none =>
    match get_study_sample p sp k with
    | some v => (some v, ((k, v) :: m).take 300)
    | none => (none, m)

/-- Replacing the DataFrame held for `k` in the memo cache.  This is not an
operation of `lru_cache` itself: it models Python aliasing, where a
materializer that mutates the DataFrame it was handed is mutating the very
object stored in the cache. -/
def memoSet (m : Memo) (k : SampleKey) (v : DataFrame) : Memo :=
  m.map (fun kv => if kv.1 = k then (k, v) else kv)

/-- Cell values of a column as rendered by `df.to_csv` (rationals stand in
for Python's float rendering; no claim depends on the digits). -/
def Column.cellsCsv : Column → List String
  | .numeric vs => vs.map toString
  | .intCol vs => vs.map toString
  | .cat _ cats codes => codes.map (fun c => cats.getD c "")
  | .strCol vs => vs

/-- Cell values of a column as written into a spreadsheet by `df.to_excel`:
numbers stay numbers, categorical cells are their labels. -/
def Column.cellsVal : Column → List Value
  | .numeric vs => vs.map .num
  | .intCol vs => vs.map (fun v => .num (v : ℚ))
  | .cat _ cats codes => codes.map (fun c => .str (cats.getD c ""))
  | .strCol vs => vs.map .str

/-- Row-major table of a DataFrame under a per-column cell rendering. -/
def DataFrame.rows {γ : Type} (cells : Column → List γ) (dflt : γ)
    (df : DataFrame) : List (List γ) :=
  let n := (df.head?.map (fun nc => nc.2.size)).getD 0
  (List.range n).map (fun i => df.map (fun nc => (cells nc.2).getD i dflt))

/-- Translation of `df_to_csv(df, pathname)` from `app/__init__.py`: every ordered
categorical column is first replaced **in place** by its integer codes
(`df[varName] = df[varName].cat.codes`), then `df.to_csv(..., index=False)`
writes a header line and the rows.  The mutated DataFrame is returned next
to the written table. -/
def df_to_csv (df : DataFrame) : DataFrame × List (List String) :=
  let df' := df.map (fun nc =>
    match nc.2 with
    | .cat true _ codes => (nc.1, Column.intCol codes)
    | c => (nc.1, c))
  (df', df'.map (fun nc => nc.1) :: DataFrame.rows Column.cellsCsv "" df')

/-- Translation of `df_to_xlsx(df, pathname)` from `app/__init__.py`: the same in-place
replacement of ordered categorical columns by their integer codes, then
`df.to_excel(..., index=False)` writes the rows. -/
def df_to_xlsx (df : DataFrame) : DataFrame × List (List Value) :=
  let df' := df.map (fun nc =>
    match nc.2 with
    | .cat true _ codes => (nc.1, Column.intCol codes)
    | c => (nc.1, c))
  (df', DataFrame.rows Column.cellsVal (.num 0) df')

/-- The distinct values of a code list in first-occurrence order: the keys
of the Python dict comprehension `{value: labels[value] for value in
values}`. -/
def occurringCodes : List Nat → List Nat
  | [] => []
  | c :: rest => c :: (occurringCodes rest).filter (fun v => v ≠ c)

/-- What `df_to_sav` hands to `savReaderWriter.SavWriter`: per-variable
types (0 = numeric, n > 0 = string of width n), measurement levels, display
formats, value labels, and the written rows. -/
structure SavOut where
  varNames : List String
  varTypes : List (String × Nat)
  measureLevels : List (String × String)
  formats : List (String × String)
  valueLabels : List (String × List (Nat × String))
  rows : List (List Value)
deriving DecidableEq, Repr

/-- Translation of `df_to_sav(df, pathname)` from `app/__init__.py`, one column at a time:

* a non-categorical column is numeric with measurement level `scale`;
* an ordered categorical column is numeric with level `ordinal`, is
  replaced **in place** by its integer codes, gets value labels
  `{value: labels[value] for value in values}` (one entry per code
  *occurring in the data*) and display format
  `F{ceil(log10(len(labels)))}.0` over the declared label count;
* an unordered categorical column is a string of width
  `max(df[varName].apply(len))` (longest value present; Python's `max`
  raises on an empty column, modelled as fold with default 0) with level
  `nominal`, and is replaced **in place** by `astype('str')`.

Returns the mutated DataFrame and everything passed to the writer. -/
def df_to_sav (df : DataFrame) : DataFrame × SavOut :=
  let df' := df.map (fun nc =>
    match nc.2 with
    | .cat true _ codes => (nc.1, Column.intCol codes)
    | .cat false cats codes =>
        (nc.1, Column.strCol (codes.map (fun c => cats.getD c "")))
    | c => (nc.1, c))
  let types := df.map (fun nc =>
    match nc.2 with
    | .cat false cats codes =>
        (nc.1, (codes.map (fun c => (cats.getD c "").length)).foldl max 0)
    | _ => (nc.1, 0))
  let levels := df.map (fun nc =>
    match nc.2 with
    | .cat true _ _ => (nc.1, "ordinal")
    | .cat false _ _ => (nc.1, "nominal")
    | _ => (nc.1, "scale"))
  let fmts := (df.filterMap (fun nc =>
    match nc.2 with
    | .cat true cats _ =>
        some (nc.1, "F" ++ toString (Nat.clog 10 cats.length) ++ ".0")
    | _ => none))
  let vlabels := (df.filterMap (fun nc =>
    match nc.2 with
    | .cat true cats codes =>
        some (nc.1, (occurringCodes codes).map
          (fun v => (v, cats.getD v "")))
    | _ => none))
  (df', ⟨df.map (fun nc => nc.1), types, levels, fmts, vlabels,
         DataFrame.rows Column.cellsVal (.num 0) df'⟩)

/-- The file-cache key: the four request fields that determine a data
file.  `size` and `sid` are natural numbers (the HTTP layer passes strings;
`get_data_file` converts them with `int(...)` before materialization). -/
structure Key where
  study : String
  size : Nat
  format : String
  sid : Nat
deriving DecidableEq, Repr

/-- Translation of `filename = f'tykhe_{study}_{size}_{sid}.{format}'` from
`get_data_file`: a fixed template of the four key fields, so identical keys
always resolve to the identical filename. -/
def dataFileName (k : Key) : String :=
  "tykhe_" ++ k.study ++ "_" ++ toString k.size ++ "_" ++ toString k.sid
    ++ "." ++ k.format

/-- The memoization key reached from a file-cache key: the argument tuple
`(study, int(size), int(sid))` that `get_data_file` passes to
`create_data_file` and hence to `get_study_sample`. -/
def sampleKeyOf (k : Key) : SampleKey :=
  ⟨k.study, k.size, k.sid⟩

/-- Whether `create_data_file` has a writer for this key's format: its
`if format ==` chain covers exactly `csv`, `xlsx`, `dta` and `sav`; any
other format value (such as the `'dummy'` filled in by `/collect`) falls
through every branch and writes no file. -/
def writerFormat (k : Key) : Bool :=
  k.format == "csv" || k.format == "xlsx" || k.format == "dta"
    || k.format == "sav"

/-- Whether the key's format writer mutates the DataFrame it is handed
in place: `df_to_csv`, `df_to_xlsx` and `df_to_sav` do
(`df[varName] = ...`); `df.to_stata` and the no-writer fall-through do
not. -/
def mutatingFormat (k : Key) : Bool :=
  k.format == "csv" || k.format == "xlsx" || k.format == "sav"

/-- The per-key filesystem state of the cache directory: whether the
sentinel file `'creating-' + filename` exists and whether the data file
itself exists. -/
structure FS where
  sentinel : Bool
  dataFile : Bool
deriving DecidableEq, Repr

/-- What `create_data_file` wrote, by format.  `create_data_file` has a
writer only for `csv`, `xlsx`, `dta` and `sav`; any other format value
(such as the `'dummy'` filled in by `/collect`) falls through every `if`
and writes nothing. -/
inductive FileData
  | csv (table : List (List String))
  | xlsx (table : List (List Value))
  | dta (df : DataFrame)
  | sav (s : SavOut)
deriving DecidableEq

/-- Translation of `create_data_file(study, size, format, sid, pathname, signalname)` from
`app/__init__.py`, run to completion, with the `lru_cache` state threaded
explicitly:

* `df = get_study_sample(study, size, sid)` — for an unknown study id this
  raises `KeyError`, the thread dies, nothing is written and the sentinel
  is **not** removed (`Except.error`);
* otherwise the format-specific writer runs; because Python's DataFrame is
  passed by reference, the mutation done by `df_to_csv`/`df_to_xlsx`/
  `df_to_sav` hits the object held in the `lru_cache`, modelled by a
  `memoSet` write-back of the mutated frame;
* finally `unlink(signalname)` removes the sentinel (`Except.ok`, where
  `ok none` means no writer matched and no file was produced). -/
def create_data_file (p : Prims) (sp : SimonParams) (m : Memo) (k : Key) :
    Memo × Except Unit (Option FileData) :=
  let sk : SampleKey := sampleKeyOf k
  match get_study_sample_memo p sp m sk with
  | (none, m') => (m', .error ())
  | (some df, m') =>
    if k.format = "csv" then
      let (df', t) := df_to_csv df
      (memoSet m' sk df', .ok (some (.csv t)))
    else if k.format = "xlsx" then
      let (df', t) := df_to_xlsx df
      (memoSet m' sk df', .ok (some (.xlsx t)))
    else if k.format = "dta" then
      (m', .ok (some (.dta df)))
    else if k.format = "sav" then
      let (df', s) := df_to_sav df
      (memoSet m' sk df', .ok (some (.sav s)))
    else
      (m', .ok none)

/-- Sequential semantics of one `get_data_file(study, size, format, sid, wait)` call from
`app/__init__.py` for a single caller, with the spawned
`create_data_file` thread run to completion (with `wait=True` the caller
joins it; with `wait=False` it finishes asynchronously — the quiescent
final state is the same, and the concurrent interleavings are covered by
the `Step` machine below):

* `open(signalpath, 'x')` fails iff the sentinel exists (the `<underway>`
  state): the call then returns the filename at once (the polling loop of
  `wait=True` needs a second thread to ever exit and is part of the
  concurrent model only);
* on exclusive creation of the sentinel, an existing data file
  (`<exists>`) means: remove the sentinel and return;
* otherwise (`<nothing>`) `create_data_file` runs: on success the data
  file exists (if a writer matched) and the sentinel is gone; on a
  `KeyError` the sentinel stays and no file appears.

Returns (filename, filesystem, memo cache, whether the Sampler ran). -/
def get_data_file (p : Prims) (sp : SimonParams) (m : Memo) (fs : FS)
    (k : Key) : String × FS × Memo × Bool :=
  let filename := dataFileName k
  if fs.sentinel then
    (filename, fs, m, false)
  else if fs.dataFile then
    (filename, ⟨false, true⟩, m, false)
  else
    match create_data_file p sp m k with
    | (m', .error ()) => (filename, ⟨true, false⟩, m', true)
    | (m', .ok fd) => (filename, ⟨false, fd.isSome⟩, m', true)

/-- The `/download` route: `get_data_file(..., wait=True)` followed by
`send_from_directory`, which serves the named file if it exists and
responds with an error (`NotFound`) otherwise.  Returns ((served?,
filename), filesystem, memo). -/
def download (p : Prims) (sp : SimonParams) (m : Memo) (fs : FS) (k : Key) :
    (Bool × String) × FS × Memo :=
  let (filename, fs', m', _) := get_data_file p sp m fs k
  ((fs'.dataFile, filename), fs', m')

/-- Control state of one thread participating in the sentinel protocol of
`get_data_file`/`create_data_file` for a fixed key:

* `start wait` — a caller about to execute `open(signalpath, 'x')`;
* `won wait`  — the caller created the sentinel and is about to test
  `path.isfile(pathname)`;
* `lost wait` — the caller hit `FileExistsError` (sentinel already held by
  someone else) and, if `wait`, polls for the sentinel to disappear;
* `matWrite`  — a spawned `create_data_file` thread about to generate the
  data and write the data file;
* `matUnlink` — the materializer wrote the file and is about to
  `unlink(signalname)`;
* `retn f`    — a caller that returned filename `f`;
* `dead`      — a finished materializer thread. -/
inductive TState
  | start (wait : Bool)
  | won (wait : Bool)
  | lost (wait : Bool)
  | matWrite
  | matUnlink
  | retn (filename : String)
  | dead
deriving DecidableEq, Repr

/-- Global state for one cache key: the two filesystem bits (sentinel file,
data file), all thread control states, and how many times the
materialization routine (Sampler + Materializer body of
`create_data_file`) has executed its write. -/
structure Sys where
  sentinel : Bool
  dataFile : Bool
  threads : List TState
  matCount : Nat
deriving Repr

/-- The cache directory at server start: no sentinel, no data file, no
threads, no materialization performed. -/
def Sys.init : Sys := ⟨false, false, [], 0⟩

/-- Interleaving semantics of the sentinel protocol for one key
(`filename` abbreviates `dataFileName k`).  Each constructor is one atomic
action of the Python source against the shared filesystem:

* `arrive`: a new caller (any process, any time) enters `get_data_file`;
* `winCreate`: `open(signalpath, 'x')` succeeds — only possible when the
  sentinel does not exist, and it atomically comes into existence;
* `loseCreate`: `open(signalpath, 'x')` raises `FileExistsError` — only
  possible when the sentinel exists;
* `wonHit`: the winner finds `path.isfile(pathname)` true, removes the
  sentinel and returns the filename;
* `wonSpawn`: the winner finds no data file, starts the
  `create_data_file` thread and returns the filename (with `wait=True` the
  return is delayed by `thread.join()`, which touches no shared state);
* `matStep`: the materializer generates the sample and runs the format
  writer (one more execution of the materialization routine); the data
  file comes into existence only when the key's format has a writer
  (`writerFormat k`) — the no-writer fall-through of `create_data_file`
  (e.g. format `'dummy'`) produces no file;
* `matDone`: the materializer removes the sentinel and finishes;
* `lostPoll`: a loser returns — immediately if `wait=False`, and after
  observing the sentinel gone if `wait=True`.

A materializer that raises (e.g. the `KeyError` of an unknown study)
simply takes no further steps; such behaviours are already among the
reachable traces, since steps are never forced. -/
inductive Step (k : Key) : Sys → Sys → Prop
  | arrive (s : Sys) (w : Bool) :
      Step k s ⟨s.sentinel, s.dataFile, s.threads ++ [.start w], s.matCount⟩
  | winCreate (s : Sys) (w : Bool) (l r : List TState) :
      s.threads = l ++ .start w :: r → s.sentinel = false →
      Step k s ⟨true, s.dataFile, l ++ .won w :: r, s.matCount⟩
  | loseCreate (s : Sys) (w : Bool) (l r : List TState) :
      s.threads = l ++ .start w :: r → s.sentinel = true →
      Step k s ⟨true, s.dataFile, l ++ .lost w :: r, s.matCount⟩
  | wonHit (s : Sys) (w : Bool) (l r : List TState) :
      s.threads = l ++ .won w :: r → s.dataFile = true →
      Step k s ⟨false, true, l ++ .retn (dataFileName k) :: r, s.matCount⟩
  | wonSpawn (s : Sys) (w : Bool) (l r : List TState) :
      s.threads = l ++ .won w :: r → s.dataFile = false →
      Step k s ⟨s.sentinel, false,
        (l ++ .retn (dataFileName k) :: r) ++ [.matWrite], s.matCount⟩
  | matStep (s : Sys) (l r : List TState) :
      s.threads = l ++ .matWrite :: r →
      Step k s ⟨s.sentinel, writerFormat k || s.dataFile,
        l ++ .matUnlink :: r, s.matCount + 1⟩
  | matDone (s : Sys) (l r : List TState) :
      s.threads = l ++ .matUnlink :: r →
      Step k s ⟨false, s.dataFile, l ++ .dead :: r, s.matCount⟩
  | lostPoll (s : Sys) (w : Bool) (l r : List TState) :
      s.threads = l ++ .lost w :: r → (w = true → s.sentinel = false) →
      Step k s ⟨s.sentinel, s.dataFile,
        l ++ .retn (dataFileName k) :: r, s.matCount⟩

/-- The states the cache directory can reach over its lifetime, under any
number of callers from any number of processes. -/
def Reachable (k : Key) (s : Sys) : Prop :=
  Relation.ReflTransGen (Step k) Sys.init s

/-- A thread that currently "owns" the sentinel: a winner that has not yet
removed it or handed it to the materializer, or a live materializer. -/
def TState.owner : TState → Bool
  | .won _ => true
  | .matWrite => true
  | .matUnlink => true
  | _ => false

/-- A materializer thread that has not yet written the data file. -/
def TState.pendingWrite : TState → Bool
  | .matWrite => true
  | _ => false

/-- The inductive invariant of the sentinel protocol:
1. completed materializations plus pending materializer writes never
   exceed one;
2. at most one thread owns the sentinel;
3. while some thread owns the sentinel, the sentinel file exists;
4. once a materialization has completed, the data file exists (and it is
   never deleted);
5. every returned value is the key's unique filename. -/
def SysInv (k : Key) (s : Sys) : Prop :=
  s.matCount + s.threads.countP TState.pendingWrite ≤ 1 ∧
  s.threads.countP TState.owner ≤ 1 ∧
  (1 ≤ s.threads.countP TState.owner → s.sentinel = true) ∧
  (1 ≤ s.matCount → s.dataFile = true) ∧
  (∀ f, TState.retn f ∈ s.threads → f = dataFileName k)

/-- Per-key coherence of the memoization cache: every DataFrame stored
for `sk` is exactly what the un-memoized `get_study_sample` computes for
it. -/
def EntryValid (p : Prims) (sp : SimonParams) (sk : SampleKey)
    (m : Memo) : Prop :=
  ∀ v, (sk, v) ∈ m → get_study_sample p sp sk = some v

/-- One request served by a worker process, as seen by its memo cache: a
bare memoized sample call (`get_study_sample`, e.g. the cache warm-up of
`/collect`), or a full `create_data_file` materialization of a file-cache
key (the `/download` path). -/
inductive Request
  | sample (sk : SampleKey)
  | materialize (k : Key)

/-- Effect of one request on the process's memo-cache state. -/
def serveRequest (p : Prims) (sp : SimonParams) (m : Memo) :
    Request → Memo
  | .sample sk => (get_study_sample_memo p sp m sk).2
  | .materialize k => (create_data_file p sp m k).1

/-- The memo-cache state of a worker process after serving an arbitrary
sequence of requests, starting from the empty cache of a fresh process. -/
def serveRequests (p : Prims) (sp : SimonParams) (h : List Request) :
    Memo :=
  h.foldl (serveRequest p sp) []

/-- Whether a request leaves the cached DataFrame of `sk` intact: every
request does, except a materialization of the same (study, size, sid) key
in one of the formats whose writer mutates its DataFrame in place
(`csv`, `xlsx`, `sav` — the C3 bug). -/
def preservesKey (sk : SampleKey) : Request → Bool
  | .sample _ => true
  | .materialize k => !mutatingFormat k || decide (sampleKeyOf k ≠ sk)

/-- The `SavOut` produced by a `create_data_file` run for a `sav`-format
key, if the run wrote one. -/
def savAfter (p : Prims) (sp : SimonParams) (m : Memo) (k : Key) :
    Option SavOut :=
  match (create_data_file p sp m k).2 with
  | .ok (some (.sav s)) => some s
  | _ => none

/-- A concrete instantiation of the abstracted numerical primitives, used
only to evaluate the model at explicit inputs in witnesses (any
instantiation would do: the theorems hold for every `Prims`). -/
def prims0 : Prims where
  rawStream := fun seed i => (seed : ℚ) + i
  choiceIdx := fun q w => q.num.natAbs % max w.length 1
  intIdx := fun q n => q.num.natAbs % max n 1
  roundExp := fun q => q
  mvnVec := fun mu _ q => mu.map (fun v => v + q)

/-- Concrete Simon-study parameters for witnesses (the real values are
estimated from reference data outside the source tree; no claim depends
on them). -/
def sp0 : SimonParams where
  mu := [4, 5, 6, 7]
  Sigma := [[1, 0, 0, 0], [0, 1, 0, 0], [0, 0, 1, 0], [0, 0, 0, 1]]

theorem pendingWrite_le_owner (ts : List TState) :
    ts.countP TState.pendingWrite ≤ ts.countP TState.owner := by
  induction ts with
  | nil => simp
  | cons t ts ih =>
      cases t <;>
        simp [List.countP_cons, TState.owner, TState.pendingWrite] <;> omega


theorem countP_middle (p : TState → Bool) (l r : List TState) (t : TState) :
    (l ++ t :: r).countP p
      = l.countP p + r.countP p + (if p t then 1 else 0) := by
  by_cases h : p t <;> simp [List.countP_append, List.countP_cons, h] <;>
    try omega

theorem Step.preserves_inv {k : Key} (hw : writerFormat k = true)
    {s s' : Sys} (h : Step k s s') (hs : SysInv k s) : SysInv k s' := by
  obtain ⟨h1, h2, h3, h4, h5⟩ := hs
  cases h with
  | arrive w =>
      refine ⟨?_, ?_, ?_, h4, ?_⟩
      · simpa [List.countP_append, List.countP_cons, TState.pendingWrite]
          using h1
      · simpa [List.countP_append, List.countP_cons, TState.owner] using h2
      · simpa [List.countP_append, List.countP_cons, TState.owner] using h3
      · intro f hf
        rw [List.mem_append] at hf
        rcases hf with hf | hf
        · exact h5 f hf
        · simp at hf
  | winCreate w l r hth hsent =>
      rw [hth, countP_middle] at h1 h2 h3
      rw [hth] at h5
      simp only [TState.pendingWrite, TState.owner, if_neg, ite_false,
        Bool.false_eq_true, Nat.add_zero] at h1 h2 h3
      have hown : l.countP TState.owner + r.countP TState.owner = 0 := by
        rcases Nat.eq_zero_or_pos
          (l.countP TState.owner + r.countP TState.owner) with hz | hp
        · exact hz
        · exact absurd (h3 (by omega)) (by simp [hsent])
      have hpl := pendingWrite_le_owner l
      have hpr := pendingWrite_le_owner r
      refine ⟨?_, ?_, fun _ => rfl, h4, ?_⟩
      · simp only [countP_middle, TState.pendingWrite, ite_false,
          Bool.false_eq_true, if_neg]
        omega
      · simp only [countP_middle, TState.owner, ite_true, if_pos]
        omega
      · intro f hf
        rcases (by simpa using hf :
            TState.retn f ∈ l ∨ TState.retn f = TState.won w
              ∨ TState.retn f ∈ r) with hf' | hf' | hf'
        · exact h5 f (by simp [hf'])
        · cases hf'
        · exact h5 f (by simp [hf'])
  | loseCreate w l r hth hsent =>
      rw [hth, countP_middle] at h1 h2 h3
      rw [hth] at h5
      refine ⟨?_, ?_, fun _ => rfl, h4, ?_⟩
      · simpa only [countP_middle, TState.pendingWrite, ite_false,
          Bool.false_eq_true, if_neg] using h1
      · simpa only [countP_middle, TState.owner, ite_false,
          Bool.false_eq_true, if_neg] using h2
      · intro f hf
        rcases (by simpa using hf :
            TState.retn f ∈ l ∨ TState.retn f = TState.lost w
              ∨ TState.retn f ∈ r) with hf' | hf' | hf'
        · exact h5 f (by simp [hf'])
        · cases hf'
        · exact h5 f (by simp [hf'])
  | wonHit w l r hth hdf =>
      rw [hth, countP_middle] at h1 h2 h3
      rw [hth] at h5
      simp only [TState.pendingWrite, TState.owner, ite_true, ite_false,
        Bool.false_eq_true, if_pos, if_neg, Nat.add_zero] at h1 h2 h3
      refine ⟨?_, ?_, ?_, fun _ => rfl, ?_⟩
      · simp only [countP_middle, TState.pendingWrite, ite_false,
          Bool.false_eq_true, if_neg]
        omega
      · simp only [countP_middle, TState.owner, ite_false,
          Bool.false_eq_true, if_neg]
        omega
      · intro hge
        simp only [countP_middle, TState.owner, ite_false,
          Bool.false_eq_true, if_neg, Nat.add_zero] at hge
        omega
      · intro f hf
        rcases (by simpa using hf :
            TState.retn f ∈ l ∨ f = dataFileName k ∨ TState.retn f ∈ r)
          with hf' | hf' | hf'
        · exact h5 f (by simp [hf'])
        · exact hf'
        · exact h5 f (by simp [hf'])
  | wonSpawn w l r hth hdf =>
      rw [hth, countP_middle] at h1 h2 h3
      rw [hth] at h5
      simp only [TState.pendingWrite, TState.owner, ite_true, ite_false,
        Bool.false_eq_true, if_pos, if_neg, Nat.add_zero] at h1 h2 h3
      have hmz : s.matCount = 0 := by
        rcases Nat.eq_zero_or_pos s.matCount with hz | hp
        · exact hz
        · exact absurd (h4 hp) (by simp [hdf])
      have hpl := pendingWrite_le_owner l
      have hpr := pendingWrite_le_owner r
      refine ⟨?_, ?_, ?_, ?_, ?_⟩
      · simp only [List.countP_append, countP_middle, List.countP_cons,
          List.countP_nil, TState.pendingWrite, ite_true, ite_false,
          Bool.false_eq_true, if_pos, if_neg]
        omega
      · simp only [List.countP_append, countP_middle, List.countP_cons,
          List.countP_nil, TState.owner, ite_true, ite_false,
          Bool.false_eq_true, if_pos, if_neg]
        omega
      · intro _
        exact h3 (by omega)
      · intro hge
        simp only [hmz] at hge
        omega
      · intro f hf
        rcases (by simpa using hf :
            (TState.retn f ∈ l ∨ f = dataFileName k ∨ TState.retn f ∈ r)
              ∨ TState.retn f = TState.matWrite) with (hf' | hf' | hf') | hf'
        · exact h5 f (by simp [hf'])
        · exact hf'
        · exact h5 f (by simp [hf'])
        · cases hf'
  | matStep l r hth =>
      rw [hth, countP_middle] at h1 h2 h3
      rw [hth] at h5
      simp only [TState.pendingWrite, TState.owner, ite_true, if_pos] at h1 h2 h3
      refine ⟨?_, ?_, ?_, fun _ => by simp [hw], ?_⟩
      · simp only [countP_middle, TState.pendingWrite, ite_false,
          Bool.false_eq_true, if_neg]
        omega
      · simp only [countP_middle, TState.owner, ite_true, if_pos]
        omega
      · intro hge
        exact h3 (by omega)
      · intro f hf
        rcases (by simpa using hf :
            TState.retn f ∈ l ∨ TState.retn f = TState.matUnlink
              ∨ TState.retn f ∈ r) with hf' | hf' | hf'
        · exact h5 f (by simp [hf'])
        · cases hf'
        · exact h5 f (by simp [hf'])
  | matDone l r hth =>
      rw [hth, countP_middle] at h1 h2 h3
      rw [hth] at h5
      simp only [TState.pendingWrite, TState.owner, ite_true, ite_false,
        Bool.false_eq_true, if_pos, if_neg, Nat.add_zero] at h1 h2 h3
      refine ⟨?_, ?_, ?_, h4, ?_⟩
      · simp only [countP_middle, TState.pendingWrite, ite_false,
          Bool.false_eq_true, if_neg]
        omega
      · simp only [countP_middle, TState.owner, ite_false,
          Bool.false_eq_true, if_neg]
        omega
      · intro hge
        simp only [countP_middle, TState.owner, ite_false,
          Bool.false_eq_true, if_neg, Nat.add_zero] at hge
        omega
      · intro f hf
        rcases (by simpa using hf :
            TState.retn f ∈ l ∨ TState.retn f = TState.dead
              ∨ TState.retn f ∈ r) with hf' | hf' | hf'
        · exact h5 f (by simp [hf'])
        · cases hf'
        · exact h5 f (by simp [hf'])
  | lostPoll w l r hth hw =>
      rw [hth, countP_middle] at h1 h2 h3
      rw [hth] at h5
      refine ⟨?_, ?_, ?_, h4, ?_⟩
      · simpa only [countP_middle, TState.pendingWrite, ite_false,
          Bool.false_eq_true, if_neg] using h1
      · simpa only [countP_middle, TState.owner, ite_false,
          Bool.false_eq_true, if_neg] using h2
      · intro hge
        refine h3 ?_
        simpa only [countP_middle, TState.owner, ite_false,
          Bool.false_eq_true, if_neg] using hge
      · intro f hf
        rcases (by simpa using hf :
            TState.retn f ∈ l ∨ f = dataFileName k ∨ TState.retn f ∈ r)
          with hf' | hf' | hf'
        · exact h5 f (by simp [hf'])
        · exact hf'
        · exact h5 f (by simp [hf'])

theorem Reachable.inv {k : Key} (hw : writerFormat k = true) {s : Sys}
    (h : Reachable k s) : SysInv k s := by
  induction h with
  | refl => exact ⟨by simp [Sys.init], by simp [Sys.init],
      by simp [Sys.init], by simp [Sys.init], by simp [Sys.init]⟩
  | tail _ hstep ih => exact Step.preserves_inv hw hstep ih

/-- C1 as amended: for every key (study, size, seed, format) whose format
has a writer in `create_data_file` (`csv`, `xlsx`, `dta`, `sav`), and any
number of concurrent callers across any number of processes, the
materialization routine (Sampler plus Materializer, i.e.
`create_data_file`) executes at most once over the lifetime of the cache
directory: the absent-to-in-progress transition (exclusive creation of the
sentinel file) has exactly one winner, only that winner runs the
materialization, and every caller that returns refers to the same file
name.  For a format with no writer (e.g. `'dummy'`) the bound fails, see
the counterexample `dummy_format_rematerializes`. -/
theorem at_most_once_materialization {k : Key}
    (hw : writerFormat k = true) {s : Sys} (h : Reachable k s) :
    s.matCount ≤ 1 ∧
      ∀ f, TState.retn f ∈ s.threads → f = dataFileName k := by
  obtain ⟨h1, _, _, _, h5⟩ := Reachable.inv hw h
  exact ⟨by omega, h5⟩

/-- Witness for C1: a full concrete run of a writer-format (`csv`) key —
a caller arrives, wins the sentinel, spawns the materializer, which writes
the file and removes the sentinel — reaches a state with exactly one
materialization, and the bound of the theorem holds there. -/
theorem at_most_once_materialization_witness :
    writerFormat ⟨"levels", 3, "csv", 7⟩ = true ∧
    Reachable ⟨"levels", 3, "csv", 7⟩
      ⟨false, true,
        [TState.retn (dataFileName ⟨"levels", 3, "csv", 7⟩), TState.dead],
        1⟩ ∧
    (⟨false, true,
        [TState.retn (dataFileName ⟨"levels", 3, "csv", 7⟩), TState.dead],
        1⟩ : Sys).matCount ≤ 1 := by
  have t1 : Step ⟨"levels", 3, "csv", 7⟩ Sys.init
      ⟨false, false, [TState.start true], 0⟩ :=
    Step.arrive Sys.init true
  have t2 : Step ⟨"levels", 3, "csv", 7⟩
      ⟨false, false, [TState.start true], 0⟩
      ⟨true, false, [TState.won true], 0⟩ :=
    Step.winCreate _ true [] [] rfl rfl
  have t3 : Step ⟨"levels", 3, "csv", 7⟩
      ⟨true, false, [TState.won true], 0⟩
      ⟨true, false,
        [TState.retn (dataFileName ⟨"levels", 3, "csv", 7⟩),
         TState.matWrite], 0⟩ :=
    Step.wonSpawn _ true [] [] rfl rfl
  have t4 : Step ⟨"levels", 3, "csv", 7⟩
      ⟨true, false,
        [TState.retn (dataFileName ⟨"levels", 3, "csv", 7⟩),
         TState.matWrite], 0⟩
      ⟨true, true,
        [TState.retn (dataFileName ⟨"levels", 3, "csv", 7⟩),
         TState.matUnlink], 1⟩ :=
    Step.matStep _ [TState.retn (dataFileName ⟨"levels", 3, "csv", 7⟩)] []
      rfl
  have t5 : Step ⟨"levels", 3, "csv", 7⟩
      ⟨true, true,
        [TState.retn (dataFileName ⟨"levels", 3, "csv", 7⟩),
         TState.matUnlink], 1⟩
      ⟨false, true,
        [TState.retn (dataFileName ⟨"levels", 3, "csv", 7⟩),
         TState.dead], 1⟩ :=
    Step.matDone _ [TState.retn (dataFileName ⟨"levels", 3, "csv", 7⟩)] []
      rfl
  have htr : Reachable ⟨"levels", 3, "csv", 7⟩
      ⟨false, true,
        [TState.retn (dataFileName ⟨"levels", 3, "csv", 7⟩),
         TState.dead], 1⟩ :=
    Relation.ReflTransGen.tail
      (Relation.ReflTransGen.tail
        (Relation.ReflTransGen.tail
          (Relation.ReflTransGen.tail
            (Relation.ReflTransGen.tail Relation.ReflTransGen.refl t1) t2)
          t3) t4) t5
  exact ⟨rfl, htr,
    (at_most_once_materialization
      (show writerFormat (⟨"levels", 3, "csv", 7⟩ : Key) = true from rfl)
      htr).1⟩

/-- C1 counterexample: for the key (levels, 3, dummy, 7) — the format
`'dummy'` is what `/collect` passes to warm the cache — `create_data_file`
has no writer, so a completed materialization leaves the key in the absent
state (no sentinel, no data file); a second request then wins the sentinel
again and the materialization routine executes a second time.  The claimed
at-most-once bound over every (study, size, seed, format) key is false on
the program: here is a reachable state with two materializations. -/
theorem dummy_format_rematerializes :
    Reachable ⟨"levels", 3, "dummy", 7⟩
      ⟨true, false,
        [TState.retn (dataFileName ⟨"levels", 3, "dummy", 7⟩), TState.dead,
         TState.retn (dataFileName ⟨"levels", 3, "dummy", 7⟩),
         TState.matUnlink], 2⟩ ∧
    ¬ ((⟨true, false,
        [TState.retn (dataFileName ⟨"levels", 3, "dummy", 7⟩), TState.dead,
         TState.retn (dataFileName ⟨"levels", 3, "dummy", 7⟩),
         TState.matUnlink], 2⟩ : Sys).matCount ≤ 1) := by
  have t1 : Step ⟨"levels", 3, "dummy", 7⟩ Sys.init
      ⟨false, false, [TState.start true], 0⟩ :=
    Step.arrive Sys.init true
  have t2 : Step ⟨"levels", 3, "dummy", 7⟩
      ⟨false, false, [TState.start true], 0⟩
      ⟨true, false, [TState.won true], 0⟩ :=
    Step.winCreate _ true [] [] rfl rfl
  have t3 : Step ⟨"levels", 3, "dummy", 7⟩
      ⟨true, false, [TState.won true], 0⟩
      ⟨true, false,
        [TState.retn (dataFileName ⟨"levels", 3, "dummy", 7⟩),
         TState.matWrite], 0⟩ :=
    Step.wonSpawn _ true [] [] rfl rfl
  have t4 : Step ⟨"levels", 3, "dummy", 7⟩
      ⟨true, false,
        [TState.retn (dataFileName ⟨"levels", 3, "dummy", 7⟩),
         TState.matWrite], 0⟩
      ⟨true, false,
        [TState.retn (dataFileName ⟨"levels", 3, "dummy", 7⟩),
         TState.matUnlink], 1⟩ :=
    Step.matStep _ [TState.retn (dataFileName ⟨"levels", 3, "dummy", 7⟩)]
      [] rfl
  have t5 : Step ⟨"levels", 3, "dummy", 7⟩
      ⟨true, false,
        [TState.retn (dataFileName ⟨"levels", 3, "dummy", 7⟩),
         TState.matUnlink], 1⟩
      ⟨false, false,
        [TState.retn (dataFileName ⟨"levels", 3, "dummy", 7⟩),
         TState.dead], 1⟩ :=
    Step.matDone _ [TState.retn (dataFileName ⟨"levels", 3, "dummy", 7⟩)]
      [] rfl
  have t6 : Step ⟨"levels", 3, "dummy", 7⟩
      ⟨false, false,
        [TState.retn (dataFileName ⟨"levels", 3, "dummy", 7⟩),
         TState.dead], 1⟩
      ⟨false, false,
        [TState.retn (dataFileName ⟨"levels", 3, "dummy", 7⟩),
         TState.dead, TState.start true], 1⟩ :=
    Step.arrive _ true
  have t7 : Step ⟨"levels", 3, "dummy", 7⟩
      ⟨false, false,
        [TState.retn (dataFileName ⟨"levels", 3, "dummy", 7⟩),
         TState.dead, TState.start true], 1⟩
      ⟨true, false,
        [TState.retn (dataFileName ⟨"levels", 3, "dummy", 7⟩),
         TState.dead, TState.won true], 1⟩ :=
    Step.winCreate _ true
      [TState.retn (dataFileName ⟨"levels", 3, "dummy", 7⟩), TState.dead]
      [] rfl rfl
  have t8 : Step ⟨"levels", 3, "dummy", 7⟩
      ⟨true, false,
        [TState.retn (dataFileName ⟨"levels", 3, "dummy", 7⟩),
         TState.dead, TState.won true], 1⟩
      ⟨true, false,
        [TState.retn (dataFileName ⟨"levels", 3, "dummy", 7⟩),
         TState.dead,
         TState.retn (dataFileName ⟨"levels", 3, "dummy", 7⟩),
         TState.matWrite], 1⟩ :=
    Step.wonSpawn _ true
      [TState.retn (dataFileName ⟨"levels", 3, "dummy", 7⟩), TState.dead]
      [] rfl rfl
  have t9 : Step ⟨"levels", 3, "dummy", 7⟩
      ⟨true, false,
        [TState.retn (dataFileName ⟨"levels", 3, "dummy", 7⟩),
         TState.dead,
         TState.retn (dataFileName ⟨"levels", 3, "dummy", 7⟩),
         TState.matWrite], 1⟩
      ⟨true, false,
        [TState.retn (dataFileName ⟨"levels", 3, "dummy", 7⟩),
         TState.dead,
         TState.retn (dataFileName ⟨"levels", 3, "dummy", 7⟩),
         TState.matUnlink], 2⟩ :=
    Step.matStep _
      [TState.retn (dataFileName ⟨"levels", 3, "dummy", 7⟩), TState.dead,
       TState.retn (dataFileName ⟨"levels", 3, "dummy", 7⟩)] [] rfl
  refine ⟨?_, by decide⟩
  exact Relation.ReflTransGen.tail
    (Relation.ReflTransGen.tail
      (Relation.ReflTransGen.tail
        (Relation.ReflTransGen.tail
          (Relation.ReflTransGen.tail
            (Relation.ReflTransGen.tail
              (Relation.ReflTransGen.tail
                (Relation.ReflTransGen.tail
                  (Relation.ReflTransGen.tail
                    Relation.ReflTransGen.refl t1) t2) t3) t4) t5) t6)
        t7) t8) t9

/-- C7: after a key's file has reached the present state (data file
exists, sentinel removed), a subsequent `get_data_file` call with the same
key returns the same filename immediately without re-invoking the Sampler
or the Materializer: the caller re-creates the sentinel, observes the data
file, removes the sentinel and returns — net effect: filesystem and memo
cache unchanged, no materialization run. -/
theorem present_state_idempotent (p : Prims) (sp : SimonParams) (m : Memo)
    (fs : FS) (k : Key) (hf : fs.dataFile = true)
    (hs : fs.sentinel = false) :
    get_data_file p sp m fs k = (dataFileName k, fs, m, false) := by
  cases fs
  simp_all [get_data_file]

/-- Witness for C7 at a concrete present-state input. -/
theorem present_state_idempotent_witness :
    (FS.mk false true).dataFile = true ∧
    get_data_file prims0 sp0 [] ⟨false, true⟩ ⟨"levels", 20, "csv", 111111⟩
      = (dataFileName ⟨"levels", 20, "csv", 111111⟩, ⟨false, true⟩, [],
         false) :=
  ⟨rfl, present_state_idempotent prims0 sp0 [] ⟨false, true⟩ _ rfl rfl⟩

/-- C5 counterexample: requesting the unknown study id `"nosuch"` from a
fresh cache does return an error (no file is served) and creates no data
file, but — contrary to the claim — it does leave the sentinel file behind
in the cache directory: `create_data_file` dies on the `KeyError` from
`STUDIES[study]` before ever reaching `unlink(signalname)`. -/
theorem unknown_study_sentinel_left :
    (download prims0 sp0 [] ⟨false, false⟩ ⟨"nosuch", 5, "csv", 1⟩).1.1
        = false ∧
    (download prims0 sp0 [] ⟨false, false⟩
        ⟨"nosuch", 5, "csv", 1⟩).2.1.dataFile = false ∧
    (download prims0 sp0 [] ⟨false, false⟩
        ⟨"nosuch", 5, "csv", 1⟩).2.1.sentinel = true := by
  refine ⟨?_, ?_, ?_⟩ <;>
    simp [download, get_data_file, create_data_file, get_study_sample_memo,
      get_study_sample, alistGet, STUDIES, sampleKeyOf]

/-- C5 as amended: requesting a study id outside the declared study set,
from an absent cache state and a memo cache without that key, returns an
error response to the caller and creates no data file, but leaves the
sentinel file in place (the known robustness gap of the sentinel
protocol). -/
theorem unknown_study_error_no_file (p : Prims) (sp : SimonParams)
    (m : Memo) (fs : FS) (k : Key) (hs : fs.sentinel = false)
    (hd : fs.dataFile = false)
    (hstudy : alistGet (STUDIES p sp) k.study = none)
    (hm : alistGet m ⟨k.study, k.size, k.sid⟩ = none) :
    download p sp m fs k = ((false, dataFileName k), ⟨true, false⟩, m) := by
  cases fs
  simp_all [download, get_data_file, create_data_file,
    get_study_sample_memo, get_study_sample, sampleKeyOf]

/-- Witness for the amended C5 at the concrete unknown study id. -/
theorem unknown_study_error_no_file_witness :
    alistGet (STUDIES prims0 sp0) "nosuch" = none ∧
    download prims0 sp0 [] ⟨false, false⟩ ⟨"nosuch", 5, "csv", 1⟩
      = ((false, dataFileName ⟨"nosuch", 5, "csv", 1⟩), ⟨true, false⟩, []) :=
  ⟨by simp [STUDIES, alistGet],
   unknown_study_error_no_file prims0 sp0 [] ⟨false, false⟩
     ⟨"nosuch", 5, "csv", 1⟩ rfl rfl (by simp [STUDIES, alistGet]) rfl⟩

theorem alistGet_mem {α β : Type} [DecidableEq α] {m : List (α × β)}
    {k : α} {v : β} (h : alistGet m k = some v) : (k, v) ∈ m := by
  induction m with
  | nil => simp [alistGet] at h
  | cons kv rest ih =>
      rcases kv with ⟨a, b⟩
      by_cases hk : a = k
      · subst hk
        simp [alistGet] at h
        subst h
        exact List.mem_cons_self _ _
      · simp [alistGet, hk] at h
        exact List.mem_cons_of_mem _ (ih h)

theorem memoCall_eq_of_entryValid {p : Prims} {sp : SimonParams}
    {sk : SampleKey} {m : Memo} (hm : EntryValid p sp sk m) :
    (get_study_sample_memo p sp m sk).1 = get_study_sample p sp sk := by
  unfold get_study_sample_memo
  cases hfind : alistGet m sk with
  | some v =>
      simpa using (hm _ (alistGet_mem hfind)).symm
  | none =>
      cases hval : get_study_sample p sp sk <;> simp [hval]

theorem EntryValid.memoCall {p : Prims} {sp : SimonParams}
    {sk : SampleKey} {m : Memo} (hm : EntryValid p sp sk m)
    (kx : SampleKey) :
    EntryValid p sp sk (get_study_sample_memo p sp m kx).2 := by
  unfold get_study_sample_memo
  cases hfind : alistGet m kx with
  | some v =>
      intro w hw
      simp only [List.mem_cons] at hw
      rcases hw with hw | hw
      · injection hw with hk hv
        subst hk
        subst hv
        exact hm _ (alistGet_mem hfind)
      · exact hm _ (List.mem_of_mem_filter hw)
  | none =>
      cases hval : get_study_sample p sp kx with
      | some v =>
          intro w hw
          have hw' := List.take_subset _ _ hw
          simp only [List.mem_cons] at hw'
          rcases hw' with hw' | hw'
          · injection hw' with hk hv
            subst hk
            subst hv
            exact hval
          · exact hm _ hw'
      | none => exact hm

theorem EntryValid.memoSetNe {p : Prims} {sp : SimonParams}
    {sk : SampleKey} {m : Memo} (hm : EntryValid p sp sk m)
    {kz : SampleKey} (df' : DataFrame) (hne : kz ≠ sk) :
    EntryValid p sp sk (memoSet m kz df') := by
  intro w hw
  unfold memoSet at hw
  rcases List.mem_map.mp hw with ⟨kv, hkv, hkveq⟩
  by_cases hk : kv.1 = kz
  · rw [if_pos hk] at hkveq
    injection hkveq with h1 _
    exact absurd h1 hne
  · rw [if_neg hk] at hkveq
    rw [hkveq] at hkv
    exact hm _ hkv

theorem preservesKey_ne {sk : SampleKey} {k : Key}
    (hk : preservesKey sk (.materialize k) = true)
    (hmut : mutatingFormat k = true) : sampleKeyOf k ≠ sk := by
  simp [preservesKey, hmut] at hk
  exact hk

theorem EntryValid.create {p : Prims} {sp : SimonParams} {sk : SampleKey}
    {m : Memo} (hm : EntryValid p sp sk m) {k : Key}
    (hk : preservesKey sk (.materialize k) = true) :
    EntryValid p sp sk (create_data_file p sp m k).1 := by
  have hmc := hm.memoCall (sampleKeyOf k)
  rcases hg : get_study_sample_memo p sp m (sampleKeyOf k) with ⟨o, m'⟩
  rw [hg] at hmc
  simp only at hmc
  cases o with
  | none => simpa only [create_data_file, hg] using hmc
  | some df =>
      simp only [create_data_file, hg]
      split_ifs with h1 h2 h3 h4
      · exact hmc.memoSetNe _
          (preservesKey_ne hk (by simp [mutatingFormat, h1]))
      · exact hmc.memoSetNe _
          (preservesKey_ne hk (by simp [mutatingFormat, h2]))
      · exact hmc
      · exact hmc.memoSetNe _
          (preservesKey_ne hk (by simp [mutatingFormat, h4]))
      · exact hmc

theorem serveRequests_entryValid (p : Prims) (sp : SimonParams)
    (sk : SampleKey) (h : List Request)
    (hh : ∀ r ∈ h, preservesKey sk r = true) :
    EntryValid p sp sk (serveRequests p sp h) := by
  have aux : ∀ (hs : List Request) (m : Memo), EntryValid p sp sk m →
      (∀ r ∈ hs, preservesKey sk r = true) →
      EntryValid p sp sk (hs.foldl (serveRequest p sp) m) := by
    intro hs
    induction hs with
    | nil => exact fun m hm _ => hm
    | cons r hs ih =>
        intro m hm hr
        rw [List.foldl_cons]
        refine ih _ ?_ (fun x hx => hr x (List.mem_cons_of_mem _ hx))
        have h1 := hr r (List.mem_cons_self _ _)
        cases r with
        | sample kx => exact hm.memoCall kx
        | materialize k => exact hm.create h1
  exact aux h [] (fun v hv => by cases hv) hh

/-- C2 as amended: for every (study, size, seed) key the dataset returned
by the memoized pipeline is fully determined by the key — equal to the
pure computation with a generator freshly seeded from the seed — across
processes and regardless of any other requests served in between,
*provided* no intervening request materialized the same key in one of the
formats whose writer mutates the shared DataFrame in place (csv, xlsx,
sav — the C3 bug): bare sample requests, requests for other keys, and
dta or no-writer materializations are all allowed in the histories.
Without that proviso the claim is false, see
`intervening_materialization_changes_dataset`. -/
theorem sampler_deterministic (p : Prims) (sp : SimonParams)
    (h₁ h₂ : List Request) (sk : SampleKey)
    (hh₁ : ∀ r ∈ h₁, preservesKey sk r = true)
    (hh₂ : ∀ r ∈ h₂, preservesKey sk r = true) :
    (get_study_sample_memo p sp (serveRequests p sp h₁) sk).1
        = get_study_sample p sp sk ∧
    (get_study_sample_memo p sp (serveRequests p sp h₂) sk).1
        = (get_study_sample_memo p sp (serveRequests p sp h₁) sk).1 := by
  have e1 :=
    memoCall_eq_of_entryValid (serveRequests_entryValid p sp sk h₁ hh₁)
  have e2 :=
    memoCall_eq_of_entryValid (serveRequests_entryValid p sp sk h₂ hh₂)
  exact ⟨e1, by rw [e1, e2]⟩

/-- Witness for the amended C2: a history holding a `dta` materialization
of another key and a sample request for yet another key does not disturb
the (levels, 1, 0) dataset. -/
theorem sampler_deterministic_witness :
    (∀ r ∈ [Request.materialize ⟨"simon", 2, "dta", 5⟩,
        Request.sample ⟨"levels", 2, 3⟩],
      preservesKey ⟨"levels", 1, 0⟩ r = true) ∧
    (get_study_sample_memo prims0 sp0
        (serveRequests prims0 sp0
          [Request.materialize ⟨"simon", 2, "dta", 5⟩,
           Request.sample ⟨"levels", 2, 3⟩]) ⟨"levels", 1, 0⟩).1
      = get_study_sample prims0 sp0 ⟨"levels", 1, 0⟩ := by
  refine ⟨by decide, ?_⟩
  exact (sampler_deterministic prims0 sp0
    [Request.materialize ⟨"simon", 2, "dta", 5⟩,
     Request.sample ⟨"levels", 2, 3⟩] [] ⟨"levels", 1, 0⟩
    (by decide) (by decide)).1

/-- C2 counterexample: the dataset the memoized pipeline returns for
(levels, 1, 0) is not determined by the key alone — after an intervening
csv materialization of that same key, the pipeline returns the mutated
shared DataFrame (its `happiness` column is no longer categorical),
different from what a fresh invocation returns. -/
theorem intervening_materialization_changes_dataset :
    (get_study_sample_memo prims0 sp0
        (serveRequests prims0 sp0
          [Request.materialize ⟨"levels", 1, "csv", 0⟩])
        ⟨"levels", 1, 0⟩).1
      ≠ (get_study_sample_memo prims0 sp0 (serveRequests prims0 sp0 [])
          ⟨"levels", 1, 0⟩).1 := by
  intro heq
  have h2 := congrArg (fun o => o.map (fun df =>
    (alistGet df "happiness").map (fun c =>
      match c with | Column.cat _ _ _ => true | _ => false))) heq
  have h3 : some (some false) = some (some true) := h2
  cases h3

theorem genRows_take (st : Study) :
    ∀ (m n first : Nat) (rng : Rng), m ≤ n →
      (genRows st first n rng).take m = genRows st first m rng := by
  intro m
  induction m with
  | zero => intro n first rng _; simp [genRows]
  | succ m ih =>
      intro n first rng h
      cases n with
      | zero => omega
      | succ n =>
          simp only [genRows, List.take_succ_cons]
          rw [ih n (first + 1) _ (Nat.le_of_succ_le_succ h)]

theorem coerceColumn_take (dt : Dtype) (vals : List Value) (m : Nat) :
    (coerceColumn dt vals).take m = coerceColumn dt (vals.take m) := by
  cases dt <;> simp [coerceColumn, Column.take, List.map_take]

/-- C4: for every study, seed and sizes `M ≤ N`, the first `M` rows of the
dataset generated with size `N` equal, row for row and in order, the
dataset generated with size `M` from the same generator state: the
observations are produced by `get_observation` with increasing index
against a single seeded random stream. -/
theorem prefix_determinism (st : Study) (m n : Nat) (rng : Rng)
    (h : m ≤ n) :
    DataFrame.firstRows m (st.get_sample n rng) = st.get_sample m rng := by
  unfold Study.get_sample DataFrame.firstRows mkDataFrame
  rw [List.map_map]
  refine List.map_congr_left ?_
  intro jv _
  simp only [Function.comp]
  congr 1
  rw [coerceColumn_take]
  congr 1
  rw [← genRows_take st m n 0 rng h, List.map_take]

/-- Witness for C4 at a concrete study, seed and sizes. -/
theorem prefix_determinism_witness :
    2 ≤ 4 ∧
    DataFrame.firstRows 2
        ((TwoSample 0).get_sample 4 (default_rng prims0 42))
      = (TwoSample 0).get_sample 2 (default_rng prims0 42) :=
  ⟨by decide,
   prefix_determinism (TwoSample 0) 2 4 (default_rng prims0 42) (by decide)⟩

/-- C10: sampling the two-group comparison study (any effect size `d`,
hence both `twosample_null` and `twosample_medium`) with seed 42 and size
4 yields the group sequence A, B, A, B — codes `[0, 1, 0, 1]` over the
declared categories `["A", "B"]` — for every instantiation of the random
primitives: group assignment depends only on observation index parity,
never on the random draws. -/
theorem twosample_group_parity (p : Prims) (d : ℚ) :
    alistGet ((TwoSample d).get_sample 4 (default_rng p 42)) "group"
        = some (Column.cat false ["A", "B"] [0, 1, 0, 1]) ∧
    Column.cellsVal (Column.cat false ["A", "B"] [0, 1, 0, 1])
        = [.str "A", .str "B", .str "A", .str "B"] :=
  ⟨rfl, rfl⟩

/-- C8: in the sav output the display format of an ordered categorical
column with `n` declared categories is the string `F` followed by
`ceil(log10 n)` and `.0` (`Nat.clog 10 n` agrees with `⌈Real.logb 10 n⌉`):
for 10 declared categories the width is 1 digit, and for every `n` with
`11 ≤ n ≤ 100` the width is 2. -/
theorem ordinal_display_format (vn : String) (cats : List String)
    (codes : List Nat) :
    alistGet (df_to_sav [(vn, .cat true cats codes)]).2.formats vn
        = some ("F" ++ toString (Nat.clog 10 cats.length) ++ ".0") ∧
    ((Nat.clog 10 cats.length : ℤ)
        = ⌈Real.logb ((10 : ℕ) : ℝ) ((cats.length : ℕ) : ℝ)⌉) ∧
    (cats.length = 10 →
      "F" ++ toString (Nat.clog 10 cats.length) ++ ".0" = "F1.0") ∧
    (11 ≤ cats.length → cats.length ≤ 100 → Nat.clog 10 cats.length = 2) := by
  refine ⟨?_, ?_, ?_, ?_⟩
  · simp [df_to_sav, alistGet]
  · rw [Real.ceil_logb_natCast (Nat.cast_nonneg _), Int.clog_natCast]
  · intro h
    rw [h, Nat.clog_eq_one (by norm_num) (by norm_num)]
    decide
  · intro h1 h2
    refine le_antisymm ?_ ?_
    · exact (Nat.le_pow_iff_clog_le (by norm_num)).mp (by norm_num; omega)
    · have h10 : 10 ^ 1 < cats.length := by norm_num; omega
      have := (Nat.pow_lt_iff_lt_clog (by norm_num)).mp h10
      omega

/-- Witness for C8: a column with 11 declared categories gets format
`F2.0`. -/
theorem ordinal_display_format_witness :
    alistGet (df_to_sav [("v", Column.cat true
        ["a", "b", "c", "d", "e", "f", "g", "h", "i", "j", "k"]
        [0])]).2.formats "v" = some "F2.0" := by
  have h := ordinal_display_format "v"
    ["a", "b", "c", "d", "e", "f", "g", "h", "i", "j", "k"] [0]
  have h2 := h.2.2.2 (by norm_num) (by norm_num)
  rw [h.1, h2]
  decide

theorem le_foldl_max (l : List Nat) (a : Nat) : a ≤ l.foldl max a := by
  induction l generalizing a with
  | nil => simp
  | cons y l ih => exact le_trans (le_max_left a y) (ih (max a y))

theorem foldl_max_le_mem (l : List Nat) (a : Nat) :
    ∀ x ∈ l, x ≤ l.foldl max a := by
  induction l generalizing a with
  | nil => intro x hx; cases hx
  | cons y l ih =>
      intro x hx
      rcases List.mem_cons.mp hx with rfl | hx
      · exact le_trans (le_max_right a x) (le_foldl_max l (max a x))
      · exact ih (max a y) x hx

theorem foldl_max_eq_init_or_mem (l : List Nat) (a : Nat) :
    l.foldl max a = a ∨ l.foldl max a ∈ l := by
  induction l generalizing a with
  | nil => left; rfl
  | cons y l ih =>
      rcases ih (max a y) with h | h
      · rcases max_choice a y with hm | hm
        · left; rw [List.foldl_cons, h, hm]
        · right; rw [List.foldl_cons, h, hm]; exact List.mem_cons_self _ _
      · right; exact List.mem_cons_of_mem _ h

/-- C9: in the sav output an unordered (nominal) categorical column is
stored as strings with declared width `max(df[varName].apply(len))`: the
maximum of the lengths of the labels actually occurring in the data (every
occurring label fits, and the width is attained by an occurring label) —
not the length of the longest label of the declared category set. -/
theorem nominal_string_width (vn : String) (cats : List String)
    (codes : List Nat) (h : codes ≠ []) :
    alistGet (df_to_sav [(vn, .cat false cats codes)]).2.varTypes vn
        = some ((codes.map (fun c => (cats.getD c "").length)).foldl max 0) ∧
    (∀ c ∈ codes, (cats.getD c "").length
        ≤ (codes.map (fun c => (cats.getD c "").length)).foldl max 0) ∧
    (∃ c ∈ codes, (cats.getD c "").length
        = (codes.map (fun c => (cats.getD c "").length)).foldl max 0) := by
  refine ⟨by simp [df_to_sav, alistGet], ?_, ?_⟩
  · intro c hc
    exact foldl_max_le_mem _ 0 _ (List.mem_map_of_mem _ hc)
  · rcases foldl_max_eq_init_or_mem
        (codes.map (fun c => (cats.getD c "").length)) 0 with hz | hm
    · obtain ⟨c, cs, rfl⟩ := List.exists_cons_of_ne_nil h
      refine ⟨c, List.mem_cons_self _ _, ?_⟩
      have hle := foldl_max_le_mem
        ((c :: cs).map (fun c => (cats.getD c "").length)) 0
        ((cats.getD c "").length)
        (List.mem_map_of_mem _ (List.mem_cons_self _ _))
      omega
    · rcases List.mem_map.mp hm with ⟨c, hc, hceq⟩
      exact ⟨c, hc, hceq⟩

/-- Witness for C9: with declared categories `["f", "ggg"]` but only code
0 (`"f"`) occurring, the declared string width is 1, strictly less than
the longest declared label's length 3. -/
theorem nominal_string_width_witness :
    ([0, 0] : List Nat) ≠ [] ∧
    alistGet (df_to_sav
        [("v", Column.cat false ["f", "ggg"] [0, 0])]).2.varTypes "v"
      = some 1 ∧
    (1 : Nat) < ("ggg" : String).length := by
  refine ⟨by decide, ?_, by decide⟩
  have h := (nominal_string_width "v" ["f", "ggg"] [0, 0] (by decide)).1
  simpa using h

/-- C6 counterexample: for an ordered categorical column with declared
categories `["low", "mid", "high"]` whose data holds only `"mid"`, the
sav value-label table attached by `df_to_sav` is the single pair
`(1, "mid")` — not the full mapping 0 ↦ low, 1 ↦ mid, 2 ↦ high claimed
for every such column. -/
theorem ordinal_label_table_partial :
    alistGet (df_to_sav [("v",
        Column.cat true ["low", "mid", "high"] [1])]).2.valueLabels "v"
      = some [(1, "mid")] ∧
    some [(1, "mid")]
      ≠ some [(0, "low"), (1, "mid"), (2, "high")] := by
  constructor
  · simp [df_to_sav, alistGet, occurringCodes]
  · decide

/-- C6 as amended: a cell holding `"mid"` in an ordered categorical column
with categories `["low", "mid", "high"]` is serialized as the integer code
1 in the CSV and spreadsheet outputs and stored as 1 in the sav output,
with an attached value-label table mapping each code occurring in the data
to its label — equal to 0 ↦ low, 1 ↦ mid, 2 ↦ high exactly when all three
categories occur, and omitting absent codes otherwise. -/
theorem ordinal_mid_encoding :
    (df_to_csv [("v", Column.cat true ["low", "mid", "high"]
        [0, 1, 2])]).2 = [["v"], ["0"], ["1"], ["2"]] ∧
    (df_to_xlsx [("v", Column.cat true ["low", "mid", "high"]
        [0, 1, 2])]).2 = [[.num 0], [.num 1], [.num 2]] ∧
    (df_to_sav [("v", Column.cat true ["low", "mid", "high"]
        [0, 1, 2])]).2.rows = [[.num 0], [.num 1], [.num 2]] ∧
    alistGet (df_to_sav [("v", Column.cat true ["low", "mid", "high"]
        [0, 1, 2])]).2.valueLabels "v"
      = some [(0, "low"), (1, "mid"), (2, "high")] ∧
    alistGet (df_to_sav [("v", Column.cat true ["low", "mid", "high"]
        [1])]).2.valueLabels "v" = some [(1, "mid")] := by
  refine ⟨?_, ?_, ?_, ?_, ?_⟩ <;> decide

/-- C3 is violated by the code: `df_to_csv` does not leave the DataFrame
it is given unchanged — it replaces the ordered categorical `happiness`
column of the `levels` sample by its integer codes in place — and because
`get_study_sample` memoizes one shared DataFrame per key, a `csv`
materialization of a key corrupts what a later `sav` materialization of
the same key observes: a fresh sav run marks `happiness` as `ordinal` and
attaches one value-label table, while a sav run after a csv run of the
same key (size 1, sid 0 here) marks it `scale` and attaches no value
labels at all.  Holds for every instantiation of the numerical
primitives. -/
theorem materializer_mutates_shared_frame (p : Prims) (sp : SimonParams) :
    ((df_to_csv ((Levels p).get_sample 1 (default_rng p 0))).1
        ≠ (Levels p).get_sample 1 (default_rng p 0)) ∧
    alistGet (df_to_sav ((Levels p).get_sample 1
        (default_rng p 0))).2.measureLevels "happiness"
      = some "ordinal" ∧
    (df_to_sav ((Levels p).get_sample 1
        (default_rng p 0))).2.valueLabels.length = 1 ∧
    (savAfter p sp (create_data_file p sp [] ⟨"levels", 1, "csv", 0⟩).1
        ⟨"levels", 1, "sav", 0⟩).map
        (fun s => alistGet s.measureLevels "happiness")
      = some (some "scale") ∧
    (savAfter p sp (create_data_file p sp [] ⟨"levels", 1, "csv", 0⟩).1
        ⟨"levels", 1, "sav", 0⟩).map (fun s => s.valueLabels)
      = some [] := by
  refine ⟨?_, rfl, rfl, rfl, rfl⟩
  intro heq
  have h2 := congrArg (fun d => (alistGet d "happiness").map
    (fun c => match c with | Column.cat _ _ _ => true | _ => false)) heq
  have h3 : some false = some true := h2
  cases h3
